import Mathlib

/-!
Shallow embedding of the character/item/combat simulation core of
`dataclasses_vs_classic_classes/026.py`.

Python integers are modelled as `Int` (they are unbounded).  The random
defaults for attributes and durability are modelled by making every field an
explicit argument of the construction function: the random source is an
external collaborator, so a constructed character is a function of whatever
values were supplied or rolled.  All `print` calls are reporting side effects
on the display sink and carry no state, so they are dropped.  Python dataclass
equality is field-wise within the same class and never holds across classes,
which is exactly constructor-wise structural equality of the `Item` inductive.
-/

namespace Dataclasses026

/-- The `PotionType` enum of the source (eight potion kinds). -/
inductive PotionType
  | health | mana | strength | perception | dexterity | intelligence | charisma | luck
  deriving DecidableEq

/-- Fields of the `Weapon` dataclass: `name`, `description` from `Item`, plus
`damage` and `durability` (the random default durability is an explicit
argument here). -/
structure WeaponData where
  name : String
  description : String
  damage : Int
  durability : Int
  deriving DecidableEq

/-- Fields of the `Armor` dataclass. -/
structure ArmorData where
  name : String
  description : String
  defense : Int
  durability : Int
  deriving DecidableEq

/-- Fields of the `Potion` dataclass. -/
structure PotionData where
  name : String
  description : String
  potion_type : PotionType
  amount : Int
  deriving DecidableEq

/-- The item hierarchy as a closed sum: `plain` is a bare `Item` (or the
behaviourless `Consumable` subclass), and `weapon`, `armor`, `potion` are the
dataclass variants.  Distinct constructors are never equal, mirroring that
dataclass `__eq__` requires identical classes. -/
inductive Item
  | plain (name description : String)
  | weapon (w : WeaponData)
  | armor (a : ArmorData)
  | potion (p : PotionData)
  deriving DecidableEq

/-- `Potion.consume` prints and returns `self.amount`; the print is a display
side effect, so the model is the returned amount. -/
def PotionData.consume (p : PotionData) : Int := p.amount

/-- The `isinstance(consumable, Potion)` test of `use_consumable`. -/
def Item.isPotion : Item → Bool
  | .potion _ => true
  | _ => false

/-- The `CharacterClass` enum: 21 classes. -/
inductive CharacterClass
  | KNIGHT | MAGE | ROGUE | ARCHER | CLERIC | WARRIOR | ASSASSIN
  | BERSERKER | PALADIN | NECROMANCER | DRUID | BARD | MONK | RANGER
  | SORCERER | WARLOCK | WIZARD | BARBARIAN | ARTIFICER | BLOODHUNTER | GRUNT
  deriving DecidableEq

/-- The `.value` string of each `CharacterClass` member, exactly as in the
source (note `BLOODHUNTER` is "Blood Hunter"). -/
def CharacterClass.value : CharacterClass → String
  | .KNIGHT => "Knight"
  | .MAGE => "Mage"
  | .ROGUE => "Rogue"
  | .ARCHER => "Archer"
  | .CLERIC => "Cleric"
  | .WARRIOR => "Warrior"
  | .ASSASSIN => "Assassin"
  | .BERSERKER => "Berserker"
  | .PALADIN => "Paladin"
  | .NECROMANCER => "Necromancer"
  | .DRUID => "Druid"
  | .BARD => "Bard"
  | .MONK => "Monk"
  | .RANGER => "Ranger"
  | .SORCERER => "Sorcerer"
  | .WARLOCK => "Warlock"
  | .WIZARD => "Wizard"
  | .BARBARIAN => "Barbarian"
  | .ARTIFICER => "Artificer"
  | .BLOODHUNTER => "Blood Hunter"
  | .GRUNT => "Grunt"

/-- The 21 class labels, in enum order. -/
def classLabels : List String :=
  ["Knight", "Mage", "Rogue", "Archer", "Cleric", "Warrior", "Assassin",
   "Berserker", "Paladin", "Necromancer", "Druid", "Bard", "Monk", "Ranger",
   "Sorcerer", "Warlock", "Wizard", "Barbarian", "Artificer", "Blood Hunter",
   "Grunt"]

/-- The `Character` dataclass state after `__post_init__`: `character_class`
is already normalised to a string and `inventory` is a concrete list. -/
structure Character where
  name : String
  character_class : String
  strength : Int
  perception : Int
  dexterity : Int
  intelligence : Int
  charisma : Int
  luck : Int
  level : Int
  health : Int
  attack : Int
  defense : Int
  inventory : List Item
  deriving DecidableEq

/-- Python's `list.remove(x)`: drop the first element equal to `x` (the caller
`use_consumable` only invokes it after a membership check, so the
element-missing `ValueError` branch is unreachable there). -/
def removeFirst (item : Item) : List Item → List Item
  | [] => []
  | x :: xs => if x = item then xs else x :: removeFirst item xs

/-- Number of elements of the list equal to the given item. -/
def countItem (item : Item) : List Item → Nat
  | [] => 0
  | x :: xs => (if x = item then 1 else 0) + countItem item xs

/-- The `damage_taken = max(0, amount - self.defense)` computation of
`Character.take_damage`. -/
def damageTaken (c : Character) (amount : Int) : Int :=
  max 0 (amount - c.defense)

/-- `Character.take_damage`: subtract the mitigated damage from health, then
clamp at zero when the result is `<= 0` (the defeat branch). -/
def takeDamage (c : Character) (amount : Int) : Character :=
  let h := c.health - damageTaken c amount
  if h ≤ 0 then { c with health := 0 } else { c with health := h }

/-- `Character.attack_enemy`: pure delegation to the enemy's `take_damage`
with the attacker's `attack`; the attacker is unchanged, so the result is the
updated enemy. -/
def attackEnemy (attacker enemy : Character) : Character :=
  takeDamage enemy attacker.attack

/-- `Character.add_item`: append to the end of the inventory. -/
def addItem (c : Character) (item : Item) : Character :=
  { c with inventory := c.inventory ++ [item] }

/-- `Character.use_consumable`: membership test by equality, then the
three-way branch (potion present / present but not a potion / absent).  The
two no-op branches only print. -/
def useConsumable (c : Character) (consumable : Item) : Character :=
  if consumable ∈ c.inventory then
    match consumable with
    | Item.potion p =>
        { c with health := c.health + p.consume,
                 inventory := removeFirst (Item.potion p) c.inventory }
    | _ => c
  else c

/-- The `character_class` constructor argument: the source accepts either a
`CharacterClass` enum member or a raw string. -/
inductive ClassArg
  | ofEnum (c : CharacterClass)
  | ofString (s : String)

/-- The `__post_init__` normalisation
`self.character_class.value if isinstance(..., CharacterClass) else self.character_class`. -/
def ClassArg.normalize : ClassArg → String
  | .ofEnum c => c.value
  | .ofString s => s

/-- `Character._apply_class_bonuses`: the 21-branch `elif` chain comparing the
stored string against each `CharacterClass` member's `.value`, falling
through with no change for any other label. -/
def applyClassBonuses (c : Character) : Character :=
  if c.character_class = CharacterClass.KNIGHT.value then
    { c with strength := c.strength + 2, defense := c.defense + 1,
             health := c.health + 10 }
  else if c.character_class = CharacterClass.MAGE.value then
    { c with intelligence := c.intelligence + 3, attack := c.attack + 2,
             health := c.health - 5 }
  else if c.character_class = CharacterClass.ROGUE.value then
    { c with dexterity := c.dexterity + 3, perception := c.perception + 1,
             attack := c.attack + 1 }
  else if c.character_class = CharacterClass.ARCHER.value then
    { c with dexterity := c.dexterity + 2, perception := c.perception + 2,
             attack := c.attack + 1 }
  else if c.character_class = CharacterClass.CLERIC.value then
    { c with charisma := c.charisma + 2, intelligence := c.intelligence + 1,
             health := c.health + 5 }
  else if c.character_class = CharacterClass.WARRIOR.value then
    { c with strength := c.strength + 3, defense := c.defense + 2,
             health := c.health + 15 }
  else if c.character_class = CharacterClass.ASSASSIN.value then
    { c with dexterity := c.dexterity + 4, luck := c.luck + 1,
             attack := c.attack + 2, health := c.health - 10 }
  else if c.character_class = CharacterClass.BERSERKER.value then
    { c with strength := c.strength + 4, health := c.health + 20,
             defense := c.defense - 1 }
  else if c.character_class = CharacterClass.PALADIN.value then
    { c with strength := c.strength + 1, charisma := c.charisma + 2,
             defense := c.defense + 2, health := c.health + 10 }
  else if c.character_class = CharacterClass.NECROMANCER.value then
    { c with intelligence := c.intelligence + 3, charisma := c.charisma + 1,
             health := c.health - 5 }
  else if c.character_class = CharacterClass.DRUID.value then
    { c with charisma := c.charisma + 2, perception := c.perception + 1,
             health := c.health + 5 }
  else if c.character_class = CharacterClass.BARD.value then
    { c with charisma := c.charisma + 2, luck := c.luck + 1,
             attack := c.attack + 1 }
  else if c.character_class = CharacterClass.MONK.value then
    { c with charisma := c.charisma + 2, strength := c.strength + 1,
             health := c.health + 5 }
  else if c.character_class = CharacterClass.RANGER.value then
    { c with dexterity := c.dexterity + 3, perception := c.perception + 2,
             attack := c.attack + 1 }
  else if c.character_class = CharacterClass.SORCERER.value then
    { c with intelligence := c.intelligence + 4, luck := c.luck + 1,
             attack := c.attack + 2 }
  else if c.character_class = CharacterClass.WARLOCK.value then
    { c with charisma := c.charisma + 3, luck := c.luck + 2,
             health := c.health - 10 }
  else if c.character_class = CharacterClass.WIZARD.value then
    { c with intelligence := c.intelligence + 4, luck := c.luck + 1,
             attack := c.attack + 2 }
  else if c.character_class = CharacterClass.BARBARIAN.value then
    { c with strength := c.strength + 4, defense := c.defense + 2,
             health := c.health + 20 }
  else if c.character_class = CharacterClass.ARTIFICER.value then
    { c with intelligence := c.intelligence + 3, luck := c.luck + 1,
             attack := c.attack + 1 }
  else if c.character_class = CharacterClass.BLOODHUNTER.value then
    { c with strength := c.strength + 3, dexterity := c.dexterity + 1,
             health := c.health + 10 }
  else if c.character_class = CharacterClass.GRUNT.value then
    { c with strength := c.strength + 1, health := c.health + 5 }
  else c

/-- Construction of a `Character` including `__post_init__`: every dataclass
field is an explicit argument in source order (the random defaults being
rolls of the external random source), `inventory = None` becomes `none` and
defaults to the empty list, the class argument is normalised to its string,
and the class bonuses are applied once on top of the supplied values. -/
def mkCharacter (name : String) (character_class : ClassArg)
    (strength perception dexterity intelligence charisma luck : Int)
    (level health attack defense : Int)
    (inventory : Option (List Item)) : Character :=
  applyClassBonuses
    { name := name
      character_class := character_class.normalize
      strength := strength
      perception := perception
      dexterity := dexterity
      intelligence := intelligence
      charisma := charisma
      luck := luck
      level := level
      health := health
      attack := attack
      defense := defense
      inventory := inventory.getD [] }

/-- The healing potion of `main()`. -/
def healingPotion : PotionData :=
  { name := "Healing Potion", description := "Restores health.",
    potion_type := PotionType.health, amount := 2 }

/-- The sword of `main()` (durability fixed at 5, one of the possible random
rolls). -/
def swordItem : Item :=
  Item.weapon { name := "Sword of Power", description := "A mighty sword.",
                damage := 3, durability := 5 }

/-- A Knight with all attributes rolled as 5, default derived stats. -/
def arthur : Character :=
  mkCharacter "Arthur" (ClassArg.ofString "Knight") 5 5 5 5 5 5 1 100 10 5 none

/-- The Grunt of `main()`: overrides `health=30, attack=5, defense=2`
(attributes fixed at 1, one of the possible random rolls). -/
def goblin : Character :=
  mkCharacter "Goblin" (ClassArg.ofString "Grunt") 1 1 1 1 1 1 1 30 5 2 none

/-- The goblin after `n` calls of `take_damage(5)`. -/
def goblinAfterHits : Nat → Character
  | 0 => goblin
  | n + 1 => takeDamage (goblinAfterHits n) 5

/-- A Mage constructed with the explicit override `health=0`: the Mage class
bonus subtracts 5 from health at construction. -/
def minion : Character :=
  mkCharacter "Minion" (ClassArg.ofString "Mage") 1 1 1 1 1 1 1 0 10 5 none

/-- A character holding two field-wise equal healing potions, both added
through `add_item`. -/
def twoPotionChar : Character :=
  addItem
    (addItem
      (mkCharacter "Dupe" (ClassArg.ofString "Villager") 1 1 1 1 1 1 1 100 10 5 none)
      (Item.potion healingPotion))
    (Item.potion healingPotion)

/-- A character at health 90 holding a sword and then two equal healing
potions, all added through `add_item`. -/
def lootedChar : Character :=
  addItem
    (addItem
      (addItem
        (mkCharacter "Looter" (ClassArg.ofString "Scout") 1 1 1 1 1 1 1 90 10 5 none)
        swordItem)
      (Item.potion healingPotion))
    (Item.potion healingPotion)

/-- A Knight holding only a sword. -/
def armedChar : Character :=
  addItem
    (mkCharacter "Armed" (ClassArg.ofString "Knight") 5 5 5 5 5 5 1 100 10 5 none)
    swordItem

/-- The claim that some `take_damage` call with a negative amount increases
health, on a character satisfying the spec's health invariant (`health >= 0`). -/
def C5Claim : Prop :=
  ∃ (c : Character) (amount : Int), amount < 0 ∧ 0 ≤ c.health ∧
    c.health < (takeDamage c amount).health

set_option maxHeartbeats 1600000 in
/-- An unrecognised class label falls through every branch of the `elif`
chain, leaving the character unchanged. -/
theorem applyClassBonuses_of_not_mem (c : Character)
    (h : c.character_class ∉ classLabels) : applyClassBonuses c = c := by
  have hc : ∀ lbl : String, lbl ∈ classLabels → ¬ (c.character_class = lbl) :=
    fun lbl hm he => h (he ▸ hm)
  unfold applyClassBonuses
  rw [if_neg (hc (CharacterClass.value .KNIGHT) (by decide)),
    if_neg (hc (CharacterClass.value .MAGE) (by decide)),
    if_neg (hc (CharacterClass.value .ROGUE) (by decide)),
    if_neg (hc (CharacterClass.value .ARCHER) (by decide)),
    if_neg (hc (CharacterClass.value .CLERIC) (by decide)),
    if_neg (hc (CharacterClass.value .WARRIOR) (by decide)),
    if_neg (hc (CharacterClass.value .ASSASSIN) (by decide)),
    if_neg (hc (CharacterClass.value .BERSERKER) (by decide)),
    if_neg (hc (CharacterClass.value .PALADIN) (by decide)),
    if_neg (hc (CharacterClass.value .NECROMANCER) (by decide)),
    if_neg (hc (CharacterClass.value .DRUID) (by decide)),
    if_neg (hc (CharacterClass.value .BARD) (by decide)),
    if_neg (hc (CharacterClass.value .MONK) (by decide)),
    if_neg (hc (CharacterClass.value .RANGER) (by decide)),
    if_neg (hc (CharacterClass.value .SORCERER) (by decide)),
    if_neg (hc (CharacterClass.value .WARLOCK) (by decide)),
    if_neg (hc (CharacterClass.value .WIZARD) (by decide)),
    if_neg (hc (CharacterClass.value .BARBARIAN) (by decide)),
    if_neg (hc (CharacterClass.value .ARTIFICER) (by decide)),
    if_neg (hc (CharacterClass.value .BLOODHUNTER) (by decide)),
    if_neg (hc (CharacterClass.value .GRUNT) (by decide))]

/-- `removeFirst` deletes exactly the first occurrence. -/
theorem removeFirst_append_of_not_mem (item : Item) (a b : List Item)
    (h : item ∉ a) : removeFirst item (a ++ item :: b) = a ++ b := by
  induction a with
  | nil => simp [removeFirst]
  | cons x xs ih =>
      rw [List.mem_cons, not_or] at h
      have hx : ¬ (x = item) := fun he => h.1 he.symm
      show (if x = item then xs ++ item :: b
            else x :: removeFirst item (xs ++ item :: b)) = x :: (xs ++ b)
      rw [if_neg hx, ih h.2]

/-- Removing a present element shortens the list by exactly one. -/
theorem length_removeFirst_of_mem (item : Item) (l : List Item)
    (h : item ∈ l) : (removeFirst item l).length + 1 = l.length := by
  induction l with
  | nil => cases h
  | cons x xs ih =>
      by_cases hx : x = item
      · simp [removeFirst, hx]
      · have hmem : item ∈ xs := by
          rcases List.mem_cons.mp h with h' | h'
          · exact absurd h'.symm hx
          · exact h'
        simp only [removeFirst, if_neg hx, List.length_cons]
        rw [← ih hmem]

/-- Removing a present element decreases its occurrence count by exactly one. -/
theorem countItem_removeFirst_of_mem (item : Item) (l : List Item)
    (h : item ∈ l) : countItem item (removeFirst item l) + 1 = countItem item l := by
  induction l with
  | nil => cases h
  | cons x xs ih =>
      by_cases hx : x = item
      · simp [removeFirst, countItem, hx]
        omega
      · have hmem : item ∈ xs := by
          rcases List.mem_cons.mp h with h' | h'
          · exact absurd h'.symm hx
          · exact h'
        simp only [removeFirst, if_neg hx, countItem]
        rw [← ih hmem]
        omega

/-- C1: for every character with `defense >= 0` and every amount `>= 0`,
`take_damage(amount)` sets health to
`max(0, health - max(0, amount - defense))`. -/
theorem takeDamage_health_eq (c : Character) (amount : Int)
    (hd : 0 ≤ c.defense) (ha : 0 ≤ amount) :
    (takeDamage c amount).health =
      max 0 (c.health - max 0 (amount - c.defense)) := by
  simp only [takeDamage, damageTaken]
  split <;> simp <;> omega

/-- Witness for C1 at Arthur (defense 6) with amount 7. -/
theorem takeDamage_health_eq_witness :
    (0 ≤ arthur.defense ∧ (0 : Int) ≤ 7) ∧
      (takeDamage arthur 7).health =
        max 0 (arthur.health - max 0 (7 - arthur.defense)) :=
  ⟨⟨by decide, by decide⟩, takeDamage_health_eq arthur 7 (by decide) (by decide)⟩

/-- C2 counterexample: a state reachable by construction alone (explicit
override `health=0` with class Mage, whose bonus subtracts 5) already has
negative health. -/
theorem construction_negative_health_cex : minion.health < 0 := by decide

/-- C2 amended: health is non-negative after every `take_damage` call,
whatever the prior state; the clamp guarantees this.  (Construction with
arbitrary arguments, and `use_consumable` with a negative-amount potion, can
still produce negative health.) -/
theorem takeDamage_health_nonneg (c : Character) (amount : Int) :
    0 ≤ (takeDamage c amount).health := by
  simp only [takeDamage, damageTaken]
  split <;> simp <;> omega

/-- C3 counterexample: with two field-wise equal potions in inventory, after
`use_consumable` the potion is still present, contradicting "that specific
potion instance is no longer present". -/
theorem useConsumable_duplicate_still_present_cex :
    Item.potion healingPotion ∈ twoPotionChar.inventory ∧
      Item.potion healingPotion ∈
        (useConsumable twoPotionChar (Item.potion healingPotion)).inventory := by
  decide

/-- C3 amended: using a potion present in inventory shortens the inventory by
exactly one, raises health by exactly the potion's amount (no clamp), and
removes exactly one equal occurrence — so the potion is gone afterwards only
when it occurred exactly once. -/
theorem useConsumable_potion_effects (c : Character) (p : PotionData)
    (h : Item.potion p ∈ c.inventory) :
    (useConsumable c (Item.potion p)).inventory.length + 1 =
        c.inventory.length ∧
      (useConsumable c (Item.potion p)).health = c.health + p.amount ∧
      countItem (Item.potion p)
          (useConsumable c (Item.potion p)).inventory + 1 =
        countItem (Item.potion p) c.inventory := by
  have hinv : (useConsumable c (Item.potion p)).inventory =
      removeFirst (Item.potion p) c.inventory := by
    simp [useConsumable, h]
  have hhp : (useConsumable c (Item.potion p)).health = c.health + p.amount := by
    simp [useConsumable, h, PotionData.consume]
  refine ⟨?_, hhp, ?_⟩
  · rw [hinv]
    exact length_removeFirst_of_mem _ _ h
  · rw [hinv]
    exact countItem_removeFirst_of_mem _ _ h

/-- Witness for C3 on the duplicate-potion character. -/
theorem useConsumable_potion_effects_witness :
    Item.potion healingPotion ∈ twoPotionChar.inventory ∧
      ((useConsumable twoPotionChar (Item.potion healingPotion)).inventory.length + 1 =
          twoPotionChar.inventory.length ∧
        (useConsumable twoPotionChar (Item.potion healingPotion)).health =
          twoPotionChar.health + healingPotion.amount ∧
        countItem (Item.potion healingPotion)
            (useConsumable twoPotionChar (Item.potion healingPotion)).inventory + 1 =
          countItem (Item.potion healingPotion) twoPotionChar.inventory) :=
  ⟨by decide, useConsumable_potion_effects twoPotionChar healingPotion (by decide)⟩

/-- C4 counterexample: the Grunt constructed with the override `health=30`
does not end at health 12 after six hits of 5, because the Grunt class bonus
adds 5 health on top of the override. -/
theorem grunt_scenario_health_ne_twelve_cex :
    (goblinAfterHits 6).health ≠ 12 := by decide

/-- C4 amended: the Grunt bonus raises the overridden health 30 to 35 at
construction; each `take_damage(5)` against defense 2 removes
`max(0, 5-2) = 3`, so the six hits go 32, 29, 26, 23, 20, 17, ending at 17,
still undefeated. -/
theorem grunt_scenario_health :
    goblin.health = 35 ∧ goblin.defense = 2 ∧
      (goblinAfterHits 1).health = 32 ∧ (goblinAfterHits 2).health = 29 ∧
      (goblinAfterHits 3).health = 26 ∧ (goblinAfterHits 4).health = 23 ∧
      (goblinAfterHits 5).health = 20 ∧ (goblinAfterHits 6).health = 17 ∧
      0 < (goblinAfterHits 6).health := by
  decide

/-- C5 counterexample: no `take_damage` call on a character with non-negative
health ever increases health — `damage_taken = max(0, amount - defense)` is
never negative, so a negative amount cannot heal through the subtraction. -/
theorem no_heal_neg_amount_cex : ¬ C5Claim := by
  rintro ⟨c, amount, -, hh, hlt⟩
  revert hlt
  simp only [takeDamage, damageTaken]
  split <;> simp <;> omega

/-- C5 amended: `take_damage` never increases the health of a character whose
health is non-negative, for any amount, negative included; the only health
increase `take_damage` can ever produce is the clamp raising an
already-negative health to 0, independent of the amount's sign. -/
theorem takeDamage_no_heal (c : Character) (amount : Int)
    (h : 0 ≤ c.health) : (takeDamage c amount).health ≤ c.health := by
  simp only [takeDamage, damageTaken]
  split <;> simp <;> omega

/-- Witness for C5 at Arthur with the negative amount -3. -/
theorem takeDamage_no_heal_witness :
    0 ≤ arthur.health ∧ (takeDamage arthur (-3)).health ≤ arthur.health :=
  ⟨by decide, takeDamage_no_heal arthur (-3) (by decide)⟩

/-- C6: constructing with any class label outside the 21 enumerated ones
applies the zero bonus record: the resulting state is exactly the supplied
values (inventory defaulting to empty), with no error. -/
theorem unknown_class_no_bonus (nm s : String)
    (st pe dx it ch lk lv h atk df : Int) (inv : Option (List Item))
    (hs : s ∉ classLabels) :
    mkCharacter nm (ClassArg.ofString s) st pe dx it ch lk lv h atk df inv =
      ⟨nm, s, st, pe, dx, it, ch, lk, lv, h, atk, df, inv.getD []⟩ := by
  unfold mkCharacter
  exact applyClassBonuses_of_not_mem _ hs

/-- Witness for C6 at the free-text label "Peasant". -/
theorem unknown_class_no_bonus_witness :
    "Peasant" ∉ classLabels ∧
      mkCharacter "Bob" (ClassArg.ofString "Peasant") 1 2 3 4 5 6 1 100 10 5 none =
        ⟨"Bob", "Peasant", 1, 2, 3, 4, 5, 6, 1, 100, 10, 5, []⟩ :=
  ⟨by decide,
    unknown_class_no_bonus "Bob" "Peasant" 1 2 3 4 5 6 1 100 10 5 none (by decide)⟩

/-- C7: `use_consumable` on an item absent from the inventory changes
nothing — neither inventory nor health — and raises no error. -/
theorem useConsumable_absent_noop (c : Character) (item : Item)
    (h : item ∉ c.inventory) : useConsumable c item = c := by
  simp [useConsumable, h]

/-- Witness for C7: Arthur's inventory is empty, so using the healing potion
is a no-op. -/
theorem useConsumable_absent_noop_witness :
    Item.potion healingPotion ∉ arthur.inventory ∧
      useConsumable arthur (Item.potion healingPotion) = arthur :=
  ⟨by decide, useConsumable_absent_noop arthur (Item.potion healingPotion) (by decide)⟩

/-- C8: `use_consumable` on a non-Potion item that is present in the
inventory changes nothing — neither inventory nor health — and raises no
error. -/
theorem useConsumable_non_potion_noop (c : Character) (item : Item)
    (hmem : item ∈ c.inventory) (hnp : item.isPotion = false) :
    useConsumable c item = c := by
  cases item <;> simp_all [useConsumable, Item.isPotion]

/-- Witness for C8: using the sword held by the armed Knight is a no-op. -/
theorem useConsumable_non_potion_noop_witness :
    (swordItem ∈ armedChar.inventory ∧ swordItem.isPotion = false) ∧
      useConsumable armedChar swordItem = armedChar :=
  ⟨⟨by decide, by decide⟩,
    useConsumable_non_potion_noop armedChar swordItem (by decide) (by decide)⟩

/-- C9: constructing from the enum member yields exactly the state of
constructing from its string label, and the stored `character_class` is the
canonical string label. -/
theorem construct_enum_eq_string (cc : CharacterClass) (nm : String)
    (st pe dx it ch lk lv h atk df : Int) (inv : Option (List Item)) :
    mkCharacter nm (ClassArg.ofEnum cc) st pe dx it ch lk lv h atk df inv =
        mkCharacter nm (ClassArg.ofString cc.value) st pe dx it ch lk lv h atk df inv ∧
      (mkCharacter nm (ClassArg.ofEnum cc) st pe dx it ch lk lv h atk df inv).character_class =
        cc.value := by
  refine ⟨rfl, ?_⟩
  cases cc <;> rfl

/-- C10: `use_consumable` locates and removes the consumable by field-wise
equality, deleting the first equal occurrence: on an inventory
`a ++ potion :: b` whose prefix `a` holds no equal potion, the result is
`a ++ b`, and health rises by the potion's amount. -/
theorem useConsumable_removes_first_eq (c : Character) (p : PotionData)
    (a b : List Item) (hinv : c.inventory = a ++ Item.potion p :: b)
    (hna : Item.potion p ∉ a) :
    (useConsumable c (Item.potion p)).inventory = a ++ b ∧
      (useConsumable c (Item.potion p)).health = c.health + p.amount := by
  have hm : Item.potion p ∈ c.inventory := by
    rw [hinv]
    exact List.mem_append_right _ (List.mem_cons_self _ _)
  have hres : (useConsumable c (Item.potion p)).inventory =
      removeFirst (Item.potion p) c.inventory := by
    simp [useConsumable, hm]
  have hhp : (useConsumable c (Item.potion p)).health = c.health + p.amount := by
    simp [useConsumable, hm, PotionData.consume]
  refine ⟨?_, hhp⟩
  rw [hres, hinv, removeFirst_append_of_not_mem _ _ _ hna]

/-- Witness for C10: the looter holds a sword and two equal potions (only the
value of the potion matters, not which instance was passed); using the potion
removes the earliest equal occurrence, keeping the later duplicate, and heals
90 to 92. -/
theorem useConsumable_removes_first_eq_witness :
    (lootedChar.inventory =
        [swordItem] ++ Item.potion healingPotion :: [Item.potion healingPotion] ∧
      Item.potion healingPotion ∉ [swordItem]) ∧
      ((useConsumable lootedChar (Item.potion healingPotion)).inventory =
          [swordItem] ++ [Item.potion healingPotion] ∧
        (useConsumable lootedChar (Item.potion healingPotion)).health =
          lootedChar.health + healingPotion.amount) :=
  ⟨⟨by decide, by decide⟩,
    useConsumable_removes_first_eq lootedChar healingPotion [swordItem]
      [Item.potion healingPotion] (by decide) (by decide)⟩

end Dataclasses026
